import Mathlib

/-!
Shallow embedding of the service registry and in-process pub/sub broker of the
huggingface-services repository.

Source files embedded:
- src/pubsub.py            (PubSubClient: register_topic, publish, get_last_response)
- src/model_services/base.py  (ModelService.predict: schematize input, run inference, model_dump)
- src/model_registry.py    (ModelRegistry chain wiring: _create_chained_callback, _initialize_services)
- src/model_services/schemas.py (the concrete pydantic schemas, abstracted to required-field shapes)

Modelling conventions:
- Python dicts become association lists over String keys with first-match lookup
  and replace-in-place update (getA / setA); keys stay unique when built by setA,
  matching dict semantics observationally.
- pydantic validation is abstracted to presence of required fields, the level of
  detail the repository relies on (validation details beyond "input conforms to a
  declared shape or the call fails" are external-library behaviour).
- The concrete inference step of each capability (transformers / wikipedia calls)
  is an external collaborator: each ModelService carries it as an abstract function
  from the validated input to a pydantic-style model value.
- async/await: all calls in the source form one sequential call stack per request,
  so publish and handlers are ordinary functions; the unbounded recursion that a
  cyclic chain would cause in Python (RecursionError) is modelled by a fuel
  parameter whose exhaustion yields a recursionError value.
- Exceptions become an error sum type; Python in-place mutation of the broker
  tables becomes explicit state threading, where the state reached at the moment
  an exception propagates is returned alongside the error (so that claims about
  what a failing call did or did not mutate are real theorems, not artifacts).
- Every publish call entered is logged in a calls trace, and every successful
  completion of a publish (the single site performing the cache write
  last_responses[topic] = response) is logged in a writes trace, so that
  trace-level claims (number of publishes, most recent successful publish) can
  be stated.
-/

namespace HFS

/-- JSON-like values carried in the dict payloads exchanged between services. -/
inductive Val where
  | vstr (s : String)
  | vnat (n : Nat)
  | vbool (b : Bool)
  | vlist (xs : List Val)

/-- A Python dict payload: association list with unique keys (by construction). -/
abbrev Dict := List (String × Val)

/-- First-match lookup in an association list (Python dict lookup). -/
def getA {α : Type} : List (String × α) → String → Option α
  | [], _ => none
  | (k, v) :: rest, key => if k = key then some v else getA rest key

/-- Replace-or-append update of an association list (Python dict assignment). -/
def setA {α : Type} : List (String × α) → String → α → List (String × α)
  | [], key, v => [(key, v)]
  | (k, w) :: rest, key, v =>
      if k = key then (key, v) :: rest else (k, w) :: setA rest key v

theorem getA_setA_self {α : Type} (l : List (String × α)) (k : String) (v : α) :
    getA (setA l k v) k = some v := by
  induction l with
  | nil => simp [getA, setA]
  | cons hd tl ih =>
      by_cases h : hd.1 = k
      · simp [setA, getA, h]
      · simp [setA, getA, h, ih]

theorem getA_setA_ne {α : Type} (l : List (String × α)) (k k2 : String) (v : α)
    (h : k ≠ k2) : getA (setA l k v) k2 = getA l k2 := by
  induction l with
  | nil => simp [getA, setA, h]
  | cons hd tl ih =>
      by_cases hh : hd.1 = k
      · simp [setA, getA, hh, h]
      · simp [setA, getA, hh, ih]

theorem getA_mem {α : Type} (l : List (String × α)) (k : String) (v : α)
    (h : getA l k = some v) : (k, v) ∈ l := by
  induction l with
  | nil => simp [getA] at h
  | cons hd tl ih =>
      obtain ⟨k2, v2⟩ := hd
      by_cases hh : k2 = k
      · subst hh
        simp [getA] at h
        subst h
        exact List.mem_cons_self _ _
      · simp [getA, hh] at h
        exact List.mem_cons_of_mem _ (ih h)

/-- One field of a pydantic schema: its name and whether it is required
(fields with a default or default_factory, such as the uuid-defaulted id of
EntityRecognitionInputSchema, are not required). -/
structure FieldSpec where
  fname : String
  required : Bool
  deriving DecidableEq

/-- A pydantic model class, abstracted to its field shape (src/model_services/schemas.py). -/
structure Schema where
  sfields : List FieldSpec
  deriving DecidableEq

/-- True when some required field of the schema is absent from the dict; this is
the event in which the pydantic constructor call in ModelService.predict raises
ValidationError. -/
def Schema.missingRequired (s : Schema) (d : Dict) : Bool :=
  s.sfields.any (fun f => f.required && (getA d f.fname).isNone)

/-- A constructed pydantic model instance, as its field mapping. -/
structure PydModel where
  data : Dict

/-- pydantic BaseModel.model_dump: the instance serialized back to a plain dict. -/
def PydModel.model_dump (m : PydModel) : Dict := m.data

/-- The exceptions the embedded code can raise. -/
inductive Err where
  /-- pydantic.ValidationError from schematizing the raw input in predict. -/
  | validationError
  /-- an unrecovered error inside a capability inference step. -/
  | inferenceError (msg : String)
  /-- ValueError raised by publish: topic never registered. -/
  | unknownTopic (topic : String)
  /-- ValueError raised by publish: topic present but its callback is None. -/
  | noHandler (topic : String)
  /-- KeyError from the _service_instances lookup during registry construction. -/
  | keyError (key : String)
  /-- Python RecursionError: unbounded chained republish (fuel exhaustion). -/
  | recursionError
  deriving DecidableEq

/-- A model service (src/model_services/base.py): name, declared input/output
schemas, and the capability-specific inference step _predict, which maps the
schematized input to a pydantic model value or fails. -/
structure ModelService where
  name : String
  input_schema : Schema
  output_schema : Schema
  inner_predict : Dict → Except Err PydModel

/-- ModelService.trigger_topic: derived from the name (base.py line 23). -/
def ModelService.trigger_topic (s : ModelService) : String := s.name ++ "-trigger"

/-- ModelService.predict (base.py lines 56-71): schematize the raw input against
the input schema (ValidationError when a required field is missing), run the
inference step, and return the model_dump of its result.  Note: the result is
serialized with model_dump but never checked against get_output_schema. -/
def ModelService.predict (s : ModelService) (model_input : Dict) : Except Err Dict :=
  if s.input_schema.missingRequired model_input then
    Except.error Err.validationError
  else
    match s.inner_predict model_input with
    | Except.error e => Except.error e
    | Except.ok schematized_output => Except.ok schematized_output.model_dump

/-- The two callback shapes the registry ever installs in the broker
(src/model_registry.py lines 110-119): a bare ModelService.predict, or the
chained_callback closure over a source service and its successor. -/
inductive Handler where
  | predict (svc : ModelService)
  | chained (source_service target_service : ModelService)

/-- The mutable state of a PubSubClient (src/pubsub.py lines 6-12):
message_queues maps a topic to its current callback (None possible in the
type, as in the source annotation), last_responses caches the most recent
successful publish result per topic. -/
structure PubSubClient where
  message_queues : List (String × Option Handler)
  last_responses : List (String × Dict)

/-- PubSubClient.__init__: both tables empty. -/
def initPubSub : PubSubClient := { message_queues := [], last_responses := [] }

/-- PubSubClient.register_topic (pubsub.py lines 14-21): the source first inserts
None for a fresh topic (only to steer logging) and then unconditionally stores
the callback, so the net effect is a single replace-or-insert of the callback. -/
def register_topic (st : PubSubClient) (topic : String) (callback : Handler) :
    PubSubClient :=
  { st with message_queues := setA st.message_queues topic (some callback) }

/-- PubSubClient.get_last_response (pubsub.py lines 41-43): dict.get with the
empty dict as default. -/
def get_last_response (st : PubSubClient) (topic : String) : Dict :=
  (getA st.last_responses topic).getD []

/-- Result of running a publish or a handler: the returned value or propagated
exception, the broker state at that moment, the publish calls entered (topic,
message) in call order, and the successful cache writes (topic, response) in
completion order. -/
structure RunResult where
  result : Except Err Dict
  state : PubSubClient
  calls : List (String × Dict)
  writes : List (String × Dict)

/-- PubSubClient.publish (pubsub.py lines 23-39), parametric in the function
used to run the installed callback: check the topic is registered, check the
callback is live, run it, then write the cache and return the response.  The
cache write happens only after the callback returns without raising. -/
def publishWith (runH : PubSubClient → Handler → Dict → RunResult)
    (st : PubSubClient) (topic : String) (message : Dict) : RunResult :=
  match getA st.message_queues topic with
  | none =>
      { result := Except.error (Err.unknownTopic topic), state := st,
        calls := [(topic, message)], writes := [] }
  | some none =>
      { result := Except.error (Err.noHandler topic), state := st,
        calls := [(topic, message)], writes := [] }
  | some (some callback) =>
      let r := runH st callback message
      match r.result with
      | Except.error e =>
          { result := Except.error e, state := r.state,
            calls := (topic, message) :: r.calls, writes := r.writes }
      | Except.ok response =>
          { result := Except.ok response,
            state := { r.state with
                        last_responses := setA r.state.last_responses topic response },
            calls := (topic, message) :: r.calls,
            writes := r.writes ++ [(topic, response)] }

/-- Run an installed callback.  A bare predict touches no broker state and makes
no publish call.  A chained_callback (model_registry.py lines 89-97) first runs
the source service predict, then publishes the output to the successor trigger
topic, and returns the source output to its own caller; errors from either step
propagate unhandled.  Fuel bounds the chained recursion depth; its exhaustion
models the RecursionError an infinite chain would hit in Python. -/
def runHandler : Nat → PubSubClient → Handler → Dict → RunResult
  | 0, st, _, _ =>
      { result := Except.error Err.recursionError, state := st, calls := [], writes := [] }
  | _ + 1, st, Handler.predict svc, m =>
      { result := svc.predict m, state := st, calls := [], writes := [] }
  | fuel + 1, st, Handler.chained source_service target_service, model_input =>
      match source_service.predict model_input with
      | Except.error e =>
          { result := Except.error e, state := st, calls := [], writes := [] }
      | Except.ok source_output =>
          let r := publishWith (runHandler fuel) st
                     target_service.trigger_topic source_output
          match r.result with
          | Except.error e =>
              { result := Except.error e, state := r.state,
                calls := r.calls, writes := r.writes }
          | Except.ok _ =>
              { result := Except.ok source_output, state := r.state,
                calls := r.calls, writes := r.writes }

/-- A top-level publish with the given recursion budget. -/
def publish (fuel : Nat) (st : PubSubClient) (topic : String) (message : Dict) :
    RunResult :=
  publishWith (runHandler fuel) st topic message

/-! Registry construction (src/model_registry.py).  The class-level catalog
_model_services is a dict keyed by each service name; _chains maps a source
service name to its successor service name.  _initialize_services first builds
_service_instances (one instance per catalog entry, keyed by name), then for
each instance picks its effective callback — the chained_callback when the name
appears in _chains, the bare predict otherwise — and registers it under the
instance trigger topic.  The successor lookup
_service_instances[_chains[service_name]] raises KeyError when the declared
successor was never catalogued. -/

/-- The _service_instances dict built from the catalog values: one instance per
catalogued service class, keyed by its name (later duplicates replace earlier
ones, as dict assignment does). -/
def mkInstances (catalog : List ModelService) : List (String × ModelService) :=
  catalog.foldl (fun acc s => setA acc s.name s) []

/-- The effective callback chosen for one service in _initialize_services:
chained_callback to the successor instance when the service name is a chain
source (KeyError when the successor instance is missing), bare predict
otherwise. -/
def buildCallback (instances : List (String × ModelService))
    (chains : List (String × String)) (service_name : String)
    (service : ModelService) : Except Err Handler :=
  match getA chains service_name with
  | some target_name =>
      match getA instances target_name with
      | none => Except.error (Err.keyError target_name)
      | some target_service => Except.ok (Handler.chained service target_service)
  | none => Except.ok (Handler.predict service)

/-- The registration loop of _initialize_services over the instances dict, in
insertion order, threading the broker state. -/
def registerAll (instances : List (String × ModelService))
    (chains : List (String × String)) :
    List (String × ModelService) → PubSubClient → Except Err PubSubClient
  | [], st => Except.ok st
  | (service_name, service) :: rest, st =>
      match buildCallback instances chains service_name service with
      | Except.error e => Except.error e
      | Except.ok callback =>
          registerAll instances chains rest
            (register_topic st service.trigger_topic callback)

/-- ModelRegistry._initialize_services (model_registry.py lines 101-119):
instantiate every catalogued service, then register each instance trigger topic
with its effective callback; a missing successor aborts construction with a
KeyError. -/
def initServices (catalog : List ModelService) (chains : List (String × String))
    (st : PubSubClient) : Except Err PubSubClient :=
  registerAll (mkInstances catalog) chains (mkInstances catalog) st

/-! Instrumentation-level notions used to state trace properties. -/

/-- Number of publish calls in a trace addressed to the given topic. -/
def countCalls (topic : String) (l : List (String × Dict)) : Nat :=
  l.countP (fun c => c.1 == topic)

/-- Replay a list of cache writes onto a last_responses table, in order. -/
def applyWrites (lr : List (String × Dict)) (w : List (String × Dict)) :
    List (String × Dict) :=
  w.foldl (fun acc c => setA acc c.1 c.2) lr

/-- The response of the most recent successful publish to the topic recorded in
a writes trace, if any (later entries are more recent). -/
def lastWriteTo (topic : String) : List (String × Dict) → Option Dict
  | [] => none
  | c :: w =>
      match lastWriteTo topic w with
      | some v => some v
      | none => if c.1 = topic then some c.2 else none

/-- One externally triggered broker operation: a topic registration or a
top-level publish (with its recursion budget). -/
inductive BrokerOp where
  | reg (topic : String) (callback : Handler)
  | pub (fuel : Nat) (topic : String) (message : Dict)

/-- Effect of one broker operation: the new state and the successful cache
writes it performed (none for a registration, the publish writes trace for a
publish, whether or not the publish as a whole succeeded). -/
def stepOp (st : PubSubClient) : BrokerOp → PubSubClient × List (String × Dict)
  | BrokerOp.reg topic callback => (register_topic st topic callback, [])
  | BrokerOp.pub fuel topic message =>
      let r := publish fuel st topic message
      (r.state, r.writes)

/-- Replay a history of broker operations from a state, accumulating all
successful cache writes in completion order. -/
def runOps : PubSubClient → List BrokerOp → PubSubClient × List (String × Dict)
  | st, [] => (st, [])
  | st, op :: rest =>
      let s := stepOp st op
      let t := runOps s.1 rest
      (t.1, s.2 ++ t.2)

/-! The concrete schemas of src/model_services/schemas.py, abstracted to their
field shapes.  A pydantic field with a default or default_factory (the
uuid-defaulted id fields) is not required; every other field is required. -/

/-- Entity: text, label. -/
def EntitySchema : Schema := { sfields := [⟨"text", true⟩, ⟨"label", true⟩] }

/-- WikipediaEntityFound: text, wikipedia_entries_found, title, url, content. -/
def WikipediaEntityFoundSchema : Schema :=
  { sfields := [⟨"text", true⟩, ⟨"wikipedia_entries_found", true⟩, ⟨"title", true⟩,
                ⟨"url", true⟩, ⟨"content", true⟩] }

/-- SummarizedWikipediaEntity: WikipediaEntityFound plus summary. -/
def SummarizedWikipediaEntitySchema : Schema :=
  { sfields := WikipediaEntityFoundSchema.sfields ++ [⟨"summary", true⟩] }

/-- WikipediaEntityNotFound: text, wikipedia_entries_found. -/
def WikipediaEntityNotFoundSchema : Schema :=
  { sfields := [⟨"text", true⟩, ⟨"wikipedia_entries_found", true⟩] }

/-- EntityRecognitionInputSchema: uuid-defaulted id, required text. -/
def EntityRecognitionInputSchema : Schema :=
  { sfields := [⟨"id", false⟩, ⟨"text", true⟩] }

/-- EntityRecognitionResultSchema: uuid-defaulted id, required text and entities. -/
def EntityRecognitionResultSchema : Schema :=
  { sfields := [⟨"id", false⟩, ⟨"text", true⟩, ⟨"entities", true⟩] }

/-- EntityLinkingInputSchema inherits EntityRecognitionResultSchema unchanged. -/
def EntityLinkingInputSchema : Schema := EntityRecognitionResultSchema

/-- EntityLinkingResultSchema: id, text, linked_entities, all required. -/
def EntityLinkingResultSchema : Schema :=
  { sfields := [⟨"id", true⟩, ⟨"text", true⟩, ⟨"linked_entities", true⟩] }

/-- EntitySummarizationInputSchema inherits EntityLinkingResultSchema unchanged. -/
def EntitySummarizationInputSchema : Schema := EntityLinkingResultSchema

/-- EntitySummarizationResultSchema: id, text, summarized_entities, all required. -/
def EntitySummarizationResultSchema : Schema :=
  { sfields := [⟨"id", true⟩, ⟨"text", true⟩, ⟨"summarized_entities", true⟩] }

/-- The chain declarations made by the class decorators at module import time
(entity_linking.py line 19, entity_recognition.py line 16), as the _chains dict. -/
def repoChains : List (String × String) :=
  [("entity-linking", "entity-summarization"), ("entity-recognition", "entity-linking")]

/-! Concrete fixture services used to evaluate the theorems on closed inputs.
Each inference step of the repository is an external collaborator (a
transformers pipeline or wikipedia client), so fixtures carry stand-in
inference functions; no claim settled here depends on what the real inference
computes. -/

/-- Fixture: the entity-recognition service shape (its real inference step is an
external transformers pipeline). -/
def erFixture : ModelService :=
  { name := "entity-recognition"
    input_schema := EntityRecognitionInputSchema
    output_schema := EntityRecognitionResultSchema
    inner_predict := fun d => Except.ok { data := d } }

/-- Broker state with the entity-recognition fixture registered unchained. -/
def erState : PubSubClient :=
  register_topic initPubSub erFixture.trigger_topic (Handler.predict erFixture)

/-- Fixture: echo service with no required input fields. -/
def echoA : ModelService :=
  { name := "echo-a", input_schema := { sfields := [] },
    output_schema := { sfields := [] },
    inner_predict := fun d => Except.ok { data := d } }

/-- Fixture: a second echo service, registered as the successor of echo-a. -/
def echoB : ModelService :=
  { name := "echo-b", input_schema := { sfields := [] },
    output_schema := { sfields := [] },
    inner_predict := fun d => Except.ok { data := d } }

/-- Broker state with echo-b registered under its trigger topic. -/
def chainSt : PubSubClient :=
  register_topic initPubSub echoB.trigger_topic (Handler.predict echoB)

/-- Fixture: a service whose input schema requires a field its chained
predecessor never produces, so its predict fails downstream. -/
def failB : ModelService :=
  { name := "fail-b", input_schema := { sfields := [⟨"need", true⟩] },
    output_schema := { sfields := [] },
    inner_predict := fun d => Except.ok { data := d } }

/-- Broker state wiring echo-a chained to fail-b, as registry construction
would for a declared chain. -/
def stC9 : PubSubClient :=
  register_topic
    (register_topic initPubSub failB.trigger_topic (Handler.predict failB))
    echoA.trigger_topic (Handler.chained echoA failB)

/-- Fixture: a transitional broker state whose topic exists with an absent
callback (the None state the source type annotation admits). -/
def deadState : PubSubClient :=
  { message_queues := [("dead-topic", none)], last_responses := [] }

/-- Fixture for the output-validation question: a contract-conforming service
whose declared output schema requires the field expected, while its inference
step returns a model value lacking it. -/
def badOutputService : ModelService :=
  { name := "bad-output"
    input_schema := { sfields := [] }
    output_schema := { sfields := [⟨"expected", true⟩] }
    inner_predict := fun _ => Except.ok { data := [("other", Val.vstr "x")] } }

/-! Supporting lemmas about the broker semantics. -/

/-- First-some choice on options. -/
def firstSome (o i : Option Dict) : Option Dict :=
  match o with
  | some v => some v
  | none => i

theorem applyWrites_append (lr w1 w2 : List (String × Dict)) :
    applyWrites lr (w1 ++ w2) = applyWrites (applyWrites lr w1) w2 := by
  simp [applyWrites, List.foldl_append]

/-- A publish run by a callback runner that reports its cache honestly reports
its own cache as the replay of its writes trace. -/
theorem publishWith_last (runH : PubSubClient → Handler → Dict → RunResult)
    (hr : ∀ st h m, (runH st h m).state.last_responses
            = applyWrites st.last_responses (runH st h m).writes)
    (st : PubSubClient) (topic : String) (message : Dict) :
    (publishWith runH st topic message).state.last_responses
      = applyWrites st.last_responses (publishWith runH st topic message).writes := by
  cases hq : getA st.message_queues topic with
  | none => simp [publishWith, hq, applyWrites]
  | some cb =>
      cases cb with
      | none => simp [publishWith, hq, applyWrites]
      | some callback =>
          cases hres : (runH st callback message).result with
          | error e => simp [publishWith, hq, hres, hr]
          | ok response =>
              simp [publishWith, hq, hres, applyWrites_append, hr,
                    applyWrites]

/-- The broker cache after running any handler is the replay of the writes the
run reported. -/
theorem runHandler_last (fuel : Nat) : ∀ (st : PubSubClient) (h : Handler) (m : Dict),
    (runHandler fuel st h m).state.last_responses
      = applyWrites st.last_responses (runHandler fuel st h m).writes := by
  induction fuel with
  | zero => intro st h m; simp [runHandler, applyWrites]
  | succ n ih =>
      intro st h m
      cases h with
      | predict svc => simp [runHandler, applyWrites]
      | chained src tgt =>
          cases hp : src.predict m with
          | error e => simp [runHandler, hp, applyWrites]
          | ok y =>
              have hmain := publishWith_last (runHandler n) ih st tgt.trigger_topic y
              cases hres : (publishWith (runHandler n) st tgt.trigger_topic y).result with
              | error e => simp [runHandler, hp, hres, hmain]
              | ok resp => simp [runHandler, hp, hres, hmain]

/-- The broker cache after a publish is the replay of its writes trace. -/
theorem publish_last (fuel : Nat) (st : PubSubClient) (topic : String) (message : Dict) :
    (publish fuel st topic message).state.last_responses
      = applyWrites st.last_responses (publish fuel st topic message).writes :=
  publishWith_last (runHandler fuel) (runHandler_last fuel) st topic message

/-- A publish whose callback runner reports no writes on error reports no
writes itself when it propagates an error. -/
theorem publishWith_error_writes (runH : PubSubClient → Handler → Dict → RunResult)
    (hr : ∀ st h m e, (runH st h m).result = Except.error e → (runH st h m).writes = [])
    (st : PubSubClient) (topic : String) (message : Dict) (e : Err)
    (he : (publishWith runH st topic message).result = Except.error e) :
    (publishWith runH st topic message).writes = [] := by
  cases hq : getA st.message_queues topic with
  | none => simp [publishWith, hq]
  | some cb =>
      cases cb with
      | none => simp [publishWith, hq]
      | some callback =>
          cases hres : (runH st callback message).result with
          | error e2 => simp [publishWith, hq, hres, hr st callback message e2 hres]
          | ok response => simp [publishWith, hq, hres] at he

/-- A handler run that propagates an error performed no cache write: the only
write site runs after the callback returned, and neither handler shape catches
a downstream error. -/
theorem runHandler_error_writes (fuel : Nat) :
    ∀ (st : PubSubClient) (h : Handler) (m : Dict) (e : Err),
      (runHandler fuel st h m).result = Except.error e →
      (runHandler fuel st h m).writes = [] := by
  induction fuel with
  | zero => intro st h m e _; simp [runHandler]
  | succ n ih =>
      intro st h m e he
      cases h with
      | predict svc => simp [runHandler]
      | chained src tgt =>
          cases hp : src.predict m with
          | error e2 => simp [runHandler, hp]
          | ok y =>
              cases hres : (publishWith (runHandler n) st tgt.trigger_topic y).result with
              | error e2 =>
                  simp only [runHandler, hp]
                  simp only [hres]
                  exact publishWith_error_writes (runHandler n) ih st
                    tgt.trigger_topic y e2 hres
              | ok resp => simp [runHandler, hp, hres] at he

/-- A publish that propagates an error performed no cache write. -/
theorem publish_error_writes (fuel : Nat) (st : PubSubClient) (topic : String)
    (message : Dict) (e : Err)
    (he : (publish fuel st topic message).result = Except.error e) :
    (publish fuel st topic message).writes = [] :=
  publishWith_error_writes (runHandler fuel) (runHandler_error_writes fuel)
    st topic message e he

theorem getA_applyWrites_aux (t : String) (w : List (String × Dict)) :
    ∀ lr : List (String × Dict),
      getA (applyWrites lr w) t
        = w.foldl (fun acc c => if c.1 = t then some c.2 else acc) (getA lr t) := by
  induction w with
  | nil => intro lr; rfl
  | cons c w ih =>
      intro lr
      obtain ⟨k, v⟩ := c
      have h1 : applyWrites lr ((k, v) :: w) = applyWrites (setA lr k v) w := rfl
      rw [h1, ih (setA lr k v), List.foldl_cons]
      have h2 : getA (setA lr k v) t = if k = t then some v else getA lr t := by
        by_cases hkt : k = t
        · subst hkt; simp [getA_setA_self]
        · simp [hkt, getA_setA_ne lr k t v hkt]
      rw [h2]

theorem foldl_write (t : String) (w : List (String × Dict)) :
    ∀ i : Option Dict,
      w.foldl (fun acc c => if c.1 = t then some c.2 else acc) i
        = firstSome (lastWriteTo t w) i := by
  induction w with
  | nil => intro i; rfl
  | cons c w ih =>
      intro i
      obtain ⟨k, v⟩ := c
      rw [List.foldl_cons, ih]
      cases hL : lastWriteTo t w with
      | some u => simp [lastWriteTo, hL, firstSome]
      | none =>
          by_cases hkt : k = t <;> simp [lastWriteTo, hL, firstSome, hkt]

/-- Lookup through a replay of writes: the last write to the key wins, the
prior table answers otherwise. -/
theorem getA_applyWrites (w : List (String × Dict)) (lr : List (String × Dict))
    (t : String) :
    getA (applyWrites lr w) t = firstSome (lastWriteTo t w) (getA lr t) := by
  rw [getA_applyWrites_aux t w lr, foldl_write]

/-- Replaying a history of broker operations yields exactly the cache obtained
by replaying the successful writes the history performed. -/
theorem runOps_last (ops : List BrokerOp) : ∀ st : PubSubClient,
    (runOps st ops).1.last_responses
      = applyWrites st.last_responses (runOps st ops).2 := by
  induction ops with
  | nil => intro st; rfl
  | cons op rest ih =>
      intro st
      cases op with
      | reg topic cb =>
          have h1 : runOps st (BrokerOp.reg topic cb :: rest)
              = ((runOps (register_topic st topic cb) rest).1,
                 [] ++ (runOps (register_topic st topic cb) rest).2) := rfl
          rw [h1, ih]
          rfl
      | pub fuel topic message =>
          have h1 : runOps st (BrokerOp.pub fuel topic message :: rest)
              = ((runOps (publish fuel st topic message).state rest).1,
                 (publish fuel st topic message).writes
                   ++ (runOps (publish fuel st topic message).state rest).2) := rfl
          rw [h1, ih, publish_last, applyWrites_append]

/-- A schema whose required field is absent from the dict reports a missing
required field; this is the event that makes the pydantic constructor raise. -/
theorem missingRequired_of_absent (s : Schema) (fs : FieldSpec) (d : Dict)
    (hmem : fs ∈ s.sfields) (hreq : fs.required = true)
    (habs : getA d fs.fname = none) :
    s.missingRequired d = true := by
  simp only [Schema.missingRequired, List.any_eq_true]
  exact ⟨fs, hmem, by simp [hreq, habs]⟩

/-- If some entry of the registration loop has a failing callback construction,
the whole loop aborts with an error, whatever state it runs from. -/
theorem registerAll_error (instances : List (String × ModelService))
    (chains : List (String × String)) :
    ∀ (l : List (String × ModelService)) (st : PubSubClient),
      (∃ p ∈ l, ∃ e, buildCallback instances chains p.1 p.2 = Except.error e) →
      ∃ e2, registerAll instances chains l st = Except.error e2 := by
  intro l
  induction l with
  | nil =>
      intro st h
      obtain ⟨p, hp, _⟩ := h
      simp at hp
  | cons hd tl ih =>
      intro st h
      obtain ⟨p, hp, e, he⟩ := h
      obtain ⟨sname, svc⟩ := hd
      cases hbc : buildCallback instances chains sname svc with
      | error e2 => exact ⟨e2, by simp [registerAll, hbc]⟩
      | ok cb =>
          rcases List.mem_cons.mp hp with heq | htl
          · subst heq
            simp only at he
            rw [hbc] at he
            cases he
          · have hrec := ih (register_topic st svc.trigger_topic cb) ⟨p, htl, e, he⟩
            simpa [registerAll, hbc] using hrec

/-! Claim theorems. -/

/-- C1, counterexample: the claim says predict validates the inference result
against the declared output shape and never returns a nonconforming output.
On the code it is false: badOutputService declares an output schema requiring
the field expected, its inference step returns a model without that field, and
predict returns that serialized output as a success even though it does not
conform to the declared output shape. -/
theorem predict_output_validation_cex :
    badOutputService.predict [] = Except.ok [("other", Val.vstr "x")] ∧
    badOutputService.output_schema.missingRequired [("other", Val.vstr "x")] = true := by
  constructor
  · rfl
  · rfl

/-- C1, amended: predict validates the raw input against the input shape, runs
the inference step, and serializes its result with model_dump before returning
it; it performs no validation of the result against the declared output shape,
so whatever model the inference step produced is returned serialized. -/
theorem predict_serializes_without_output_check (svc : ModelService) (x : Dict)
    (o : PydModel)
    (hin : svc.input_schema.missingRequired x = false)
    (hinf : svc.inner_predict x = Except.ok o) :
    svc.predict x = Except.ok o.model_dump := by
  simp [ModelService.predict, hin, hinf]

/-- C1 witness: the amended theorem evaluated on the fixture whose output does
not conform to its declared output schema. -/
theorem predict_serializes_without_output_check_witness :
    badOutputService.predict [] =
      Except.ok (PydModel.model_dump { data := [("other", Val.vstr "x")] }) :=
  predict_serializes_without_output_check badOutputService []
    { data := [("other", Val.vstr "x")] } rfl rfl

/-- C3: over any history of registrations and publishes run from a fresh
broker, get_last_response on a topic returns the empty dict while no
successful publish to that topic has completed, and afterwards returns exactly
the response of the most recent successful publish to that topic (the last
entry for the topic in the accumulated writes trace, each entry of which is
recorded at the single cache-write site of publish). -/
theorem get_last_response_history (ops : List BrokerOp) (t : String) :
    get_last_response (runOps initPubSub ops).1 t
      = (lastWriteTo t (runOps initPubSub ops).2).getD [] := by
  have h1 := runOps_last ops initPubSub
  rw [get_last_response, h1, getA_applyWrites]
  cases hL : lastWriteTo t (runOps initPubSub ops).2 <;>
    simp [firstSome, getA, hL, initPubSub]

/-- C4: a publish to a topic that was never registered fails with the
unknown-topic ValueError rather than silently doing nothing, and a publish to a
topic present in the table with an absent callback fails with the no-handler
ValueError. -/
theorem publish_unregistered_fails (fuel : Nat) (st : PubSubClient)
    (topic : String) (message : Dict) :
    (getA st.message_queues topic = none →
      (publish fuel st topic message).result
        = Except.error (Err.unknownTopic topic)) ∧
    (getA st.message_queues topic = some none →
      (publish fuel st topic message).result
        = Except.error (Err.noHandler topic)) := by
  constructor <;> intro h <;> simp [publish, publishWith, h]

/-- C4 witness: both failure modes evaluated on concrete broker states. -/
theorem publish_unregistered_fails_witness :
    (publish 1 initPubSub "ghost-topic" []).result
      = Except.error (Err.unknownTopic "ghost-topic") ∧
    (publish 1 deadState "dead-topic" []).result
      = Except.error (Err.noHandler "dead-topic") :=
  ⟨(publish_unregistered_fails 1 initPubSub "ghost-topic" []).1 rfl,
   (publish_unregistered_fails 1 deadState "dead-topic" []).2 rfl⟩

/-- C5: registering handler A and then handler B under the same topic leaves B
as the single current handler for that topic (last writer wins, no error), and
a subsequent publish to the topic invokes B, so the observed result is exactly
what B computes. -/
theorem register_replaces (st : PubSubClient) (topic : String) (hA : Handler)
    (svcB : ModelService) (fuel : Nat) (m : Dict) :
    getA (register_topic (register_topic st topic hA) topic
            (Handler.predict svcB)).message_queues topic
      = some (some (Handler.predict svcB)) ∧
    (publish (fuel + 1)
        (register_topic (register_topic st topic hA) topic
          (Handler.predict svcB)) topic m).result
      = svcB.predict m := by
  have hget : getA (setA (setA st.message_queues topic (some hA)) topic
      (some (Handler.predict svcB))) topic = some (some (Handler.predict svcB)) :=
    getA_setA_self _ _ _
  refine ⟨hget, ?_⟩
  cases hp : svcB.predict m <;>
    simp [publish, publishWith, register_topic, hget, runHandler, hp]

/-- C10: registering a callback (fresh or replacement) leaves the whole
last-response cache unchanged, so any previously cached response for any topic,
including the re-registered one, stays retrievable via get_last_response. -/
theorem register_keeps_responses (st : PubSubClient) (topic : String)
    (cb : Handler) (t : String) :
    (register_topic st topic cb).last_responses = st.last_responses ∧
    get_last_response (register_topic st topic cb) t = get_last_response st t :=
  ⟨rfl, rfl⟩

/-- C2: when A is declared chained to B, the registry installs the
chained_callback over A and B as A's effective handler; invoking it on an input
X on which A's predict yields Y, in a state where B's trigger topic carries a
live handler and the downstream publish succeeds, yields Y back to the
original caller, performs the publish to B's trigger topic with message Y as
its first and (as long as B's own handler does not republish to B's topic,
which only a cyclic chain could) only publish there, and returns only after
that publish completed, in its post-publish state. -/
theorem chained_callback_once (A B : ModelService) (hb : Handler) (fuel : Nat)
    (st : PubSubClient) (X Y resp : Dict)
    (instances : List (String × ModelService)) (chains : List (String × String))
    (hchain : getA chains A.name = some B.name)
    (hinst : getA instances B.name = some B)
    (hA : A.predict X = Except.ok Y)
    (hreg : getA st.message_queues B.trigger_topic = some (some hb))
    (hok : (publish fuel st B.trigger_topic Y).result = Except.ok resp)
    (hnorec : countCalls B.trigger_topic (runHandler fuel st hb Y).calls = 0) :
    buildCallback instances chains A.name A = Except.ok (Handler.chained A B) ∧
    (runHandler (fuel + 1) st (Handler.chained A B) X).result = Except.ok Y ∧
    (runHandler (fuel + 1) st (Handler.chained A B) X).calls
      = (B.trigger_topic, Y) :: (runHandler fuel st hb Y).calls ∧
    countCalls B.trigger_topic
      (runHandler (fuel + 1) st (Handler.chained A B) X).calls = 1 ∧
    (runHandler (fuel + 1) st (Handler.chained A B) X).state
      = (publish fuel st B.trigger_topic Y).state := by
  have hr : (runHandler fuel st hb Y).result = Except.ok resp := by
    simp only [publish, publishWith, hreg] at hok
    cases hres : (runHandler fuel st hb Y).result with
    | error e => rw [hres] at hok; simp at hok
    | ok r0 => rw [hres] at hok; simp at hok; rw [hok]
  have hpub : publishWith (runHandler fuel) st B.trigger_topic Y
      = { result := Except.ok resp,
          state := { (runHandler fuel st hb Y).state with
                      last_responses :=
                        setA (runHandler fuel st hb Y).state.last_responses
                          B.trigger_topic resp },
          calls := (B.trigger_topic, Y) :: (runHandler fuel st hb Y).calls,
          writes := (runHandler fuel st hb Y).writes
                      ++ [(B.trigger_topic, resp)] } := by
    simp [publishWith, hreg, hr]
  refine ⟨by simp [buildCallback, hchain, hinst], ?_, ?_, ?_, ?_⟩
  · simp [runHandler, hA, hpub]
  · simp [runHandler, hA, hpub]
  · simp only [runHandler, hA, hpub]
    simp [countCalls, List.countP_cons] at hnorec ⊢
    exact hnorec
  · simp [runHandler, publish, hA, hpub]

/-- C2 witness: echo-a chained to echo-b, with echo-b registered; the handler
returns the echoed input and makes exactly one publish to echo-b's topic. -/
theorem chained_callback_once_witness :
    (runHandler 2 chainSt (Handler.chained echoA echoB)
        [("k", Val.vnat 7)]).result = Except.ok [("k", Val.vnat 7)] ∧
    countCalls echoB.trigger_topic
      (runHandler 2 chainSt (Handler.chained echoA echoB)
        [("k", Val.vnat 7)]).calls = 1 :=
  ⟨(chained_callback_once echoA echoB (Handler.predict echoB) 1 chainSt
      [("k", Val.vnat 7)] [("k", Val.vnat 7)] [("k", Val.vnat 7)]
      [("echo-b", echoB)] [("echo-a", "echo-b")]
      rfl rfl rfl rfl rfl rfl).2.1,
   (chained_callback_once echoA echoB (Handler.predict echoB) 1 chainSt
      [("k", Val.vnat 7)] [("k", Val.vnat 7)] [("k", Val.vnat 7)]
      [("echo-b", echoB)] [("echo-a", "echo-b")]
      rfl rfl rfl rfl rfl rfl).2.2.2.1⟩

/-- C6: calling predict with an input missing a field required by the input
schema fails with ValidationError, and when the call arrives through a publish
to the capability's trigger topic, the publish propagates the ValidationError
and the last-response cache is left entirely unchanged: the failing topic gets
no entry created and no entry updated. -/
theorem predict_missing_required (svc : ModelService) (fs : FieldSpec) (x : Dict)
    (hmem : fs ∈ svc.input_schema.sfields) (hreq : fs.required = true)
    (habs : getA x fs.fname = none)
    (fuel : Nat) (st : PubSubClient) (topic : String)
    (hq : getA st.message_queues topic = some (some (Handler.predict svc))) :
    svc.predict x = Except.error Err.validationError ∧
    (publish (fuel + 1) st topic x).result = Except.error Err.validationError ∧
    (publish (fuel + 1) st topic x).state.last_responses = st.last_responses := by
  have hval : svc.predict x = Except.error Err.validationError := by
    simp [ModelService.predict,
          missingRequired_of_absent svc.input_schema fs x hmem hreq habs]
  refine ⟨hval, ?_, ?_⟩ <;> simp [publish, publishWith, hq, runHandler, hval]

/-- C6 witness: the entity-recognition input schema requires text; an input
carrying only id fails validation and the fresh cache stays empty. -/
theorem predict_missing_required_witness :
    erFixture.predict [("id", Val.vstr "doc1")]
      = Except.error Err.validationError ∧
    (publish 1 erState erFixture.trigger_topic
        [("id", Val.vstr "doc1")]).result = Except.error Err.validationError ∧
    (publish 1 erState erFixture.trigger_topic
        [("id", Val.vstr "doc1")]).state.last_responses = erState.last_responses :=
  predict_missing_required erFixture ⟨"text", true⟩ [("id", Val.vstr "doc1")]
    (by simp [erFixture, EntityRecognitionInputSchema]) rfl rfl
    0 erState erFixture.trigger_topic rfl

/-- C7: if at registry-construction time some catalogued capability declares a
successor name that is not present among the constructed instances, the
construction pass aborts with an error (the KeyError of the successor lookup)
instead of completing. -/
theorem initServices_missing_successor (catalog : List ModelService)
    (chains : List (String × String)) (st : PubSubClient)
    (sname tname : String) (svc : ModelService)
    (hchain : getA chains sname = some tname)
    (hsrc : getA (mkInstances catalog) sname = some svc)
    (htgt : getA (mkInstances catalog) tname = none) :
    ∃ e, initServices catalog chains st = Except.error e := by
  apply registerAll_error
  refine ⟨(sname, svc), getA_mem _ _ _ hsrc, Err.keyError tname, ?_⟩
  simp [buildCallback, hchain, htgt]

/-- C7 witness: a catalog holding only echo-a while echo-a declares the absent
successor echo-b makes construction fail. -/
theorem initServices_missing_successor_witness :
    ∃ e, initServices [echoA] [("echo-a", "echo-b")] initPubSub
      = Except.error e :=
  initServices_missing_successor [echoA] [("echo-a", "echo-b")] initPubSub
    "echo-a" "echo-b" echoA rfl rfl rfl

/-- C8: a capability whose name is not a chain source gets its bare predict as
effective handler, and running that handler performs no publish call and leaves
the entire broker state — handler table and last-response cache for every
topic — exactly as it was. -/
theorem unchained_no_publish (chains : List (String × String))
    (instances : List (String × ModelService)) (svc : ModelService)
    (hnone : getA chains svc.name = none) (fuel : Nat) (st : PubSubClient)
    (m : Dict) :
    buildCallback instances chains svc.name svc
      = Except.ok (Handler.predict svc) ∧
    (runHandler fuel st (Handler.predict svc) m).state = st ∧
    (runHandler fuel st (Handler.predict svc) m).calls = [] := by
  refine ⟨by simp [buildCallback, hnone], ?_, ?_⟩ <;>
    cases fuel <;> simp [runHandler]

/-- C8 witness: echo-b is not a chain source; its handler leaves the state
untouched and publishes nothing. -/
theorem unchained_no_publish_witness :
    (runHandler 1 chainSt (Handler.predict echoB) []).state = chainSt ∧
    (runHandler 1 chainSt (Handler.predict echoB) []).calls = [] :=
  ⟨(unchained_no_publish [("echo-a", "echo-b")] [("echo-b", echoB)] echoB
      rfl 1 chainSt []).2.1,
   (unchained_no_publish [("echo-a", "echo-b")] [("echo-b", echoB)] echoB
      rfl 1 chainSt []).2.2⟩

/-- C9: a publish whose handler invocation propagates an error — including an
error raised by a downstream chained publish inside the handler — updates no
last-response cache entry anywhere in the broker: every cache write happens
only after the callback it followed returned successfully, and no handler
catches a downstream error. -/
theorem publish_error_keeps_cache (fuel : Nat) (st : PubSubClient)
    (topic : String) (message : Dict) (e : Err)
    (h : (publish fuel st topic message).result = Except.error e) :
    (publish fuel st topic message).state.last_responses = st.last_responses := by
  have hw := publish_error_writes fuel st topic message e h
  have hl := publish_last fuel st topic message
  rw [hl, hw]
  rfl

/-- C9 witness: echo-a chained to fail-b; echo-a's own prediction succeeds, the
downstream fail-b handler raises ValidationError, and neither topic's cache
gains an entry. -/
theorem publish_error_keeps_cache_witness :
    echoA.predict [("k", Val.vnat 1)] = Except.ok [("k", Val.vnat 1)] ∧
    (publish 2 stC9 echoA.trigger_topic [("k", Val.vnat 1)]).state.last_responses
      = stC9.last_responses :=
  ⟨rfl,
   publish_error_keeps_cache 2 stC9 echoA.trigger_topic [("k", Val.vnat 1)]
     Err.validationError rfl⟩

end HFS
